import Mathlib

/-!
# Car-Rentals (RentDrive): the request handlers of `index.js`

A shallow embedding of the Express application in `index.js`: the four
relational tables, the session identity, the route table in registration
order, and every route handler with the SQL statement it issues.

Modelling conventions.

* A table is the list of its rows in the order the store returns them; an
  `INSERT` appends a row, an `UPDATE ... WHERE` maps over the rows, a
  `DELETE ... WHERE` filters them, a `SELECT ... WHERE` filters them.
* The table declarations are not part of the source.  The id the store gives
  to an inserted row and whether the store executes a statement at all are
  therefore inputs (`Env`): a statement that fails makes `pool.query` throw,
  which every handler catches and answers with status 500.
* SQL `=` on a column is equality of the column's values; form fields are
  present and well typed (text fields are strings, ids are numbers).
* The data handed to a page template is not modelled, only the view's name.
* Routing is that of the default Express application: paths match without
  regard to letter case and with an optional trailing slash, and a `HEAD`
  request runs the callbacks of the `app.get` route of its path.  The
  directory `public` holds no file at the path of a route.
-/

namespace CarRentals

/-! ## Data model -/

/-- Row of the `users` table. -/
structure User where
  id : Nat
  fullname : String
  email : String
  password : String
  phone : String
  city : String
deriving DecidableEq, Repr

/-- Row of the `drivers` table. -/
structure Driver where
  id : Nat
  fullname : String
  email : String
  password : String
  phone : String
  city : String
  org_type : String
  organization_id : Option Nat
  license_file : Option String
deriving DecidableEq, Repr

/-- Row of the `organizations` table. -/
structure Organization where
  id : Nat
  company_name : String
  reg_number : String
  email : String
  phone : String
  password : String
deriving DecidableEq, Repr

/-- Row of the `bookings` table (the columns the handlers read or write). -/
structure Booking where
  id : Nat
  user_id : Nat
  driver_id : Option Nat
  pickup_address : String
  drop_address : String
  pickup_time : String
  start_date : String
  end_date : String
  status : String
  confirmed : Bool
deriving DecidableEq, Repr

/-- The relational store: the four tables. -/
structure DB where
  users : List User
  drivers : List Driver
  organizations : List Organization
  bookings : List Booking
deriving DecidableEq, Repr

/-- The value of `req.session.user`. -/
structure Identity where
  id : Nat
  role : String
  name : String
deriving DecidableEq, Repr

/-- HTTP method of a request (the verbs that reach a registered route). -/
inductive Method where
  | GET
  | HEAD
  | POST
deriving DecidableEq, Repr

/-- The fields of `req.body` the handlers destructure. -/
structure Body where
  fullname : String := ""
  email : String := ""
  password : String := ""
  phone : String := ""
  city : String := ""
  orgOpt : String := ""
  orgId : Option Nat := none
  companyName : String := ""
  regNumber : String := ""
  pickup_address : String := ""
  drop_address : String := ""
  pickup_time : String := ""
  start_date : String := ""
  end_date : String := ""
  booking_id : Nat := 0
  id : Nat := 0
  name : String := ""
  message : String := ""
deriving DecidableEq, Repr

/-- An incoming request; `file` is `req.file.filename` when a file was uploaded. -/
structure Request where
  method : Method
  path : String
  body : Body := {}
  file : Option String := none
deriving DecidableEq, Repr

/-- What the store does with the statements of one request: `ok k` tells whether
the `k`-th statement the handler issues is executed (otherwise `pool.query`
throws), `newId` is the id the store gives to a row inserted by the request. -/
structure Env where
  ok : Nat → Bool
  newId : Nat

/-- The response sent to the client. -/
inductive Response where
  | redirect (location : String)
  | render (view : String)
  | send (body : String)
  | status500 (body : String)
  | notFound
deriving DecidableEq, Repr

/-- Result of serving a request: the store, `req.session.user` and the response. -/
structure Outcome where
  db : DB
  session : Option Identity
  resp : Response
deriving DecidableEq, Repr

/-- A middleware or route callback; `none` stands for a call of `next()`. -/
abbrev Handler := Env → Request → DB → Option Identity → Option Outcome

/-! ## Middleware and handlers -/

/-- `requireLogin`: redirect to `/login` without a session identity, else `next()`. -/
def requireLogin : Handler := fun _ _ db sess =>
  match sess with
  | none => some ⟨db, sess, .redirect "/login"⟩
  | some _ => none

/-- `app.get('/')`. -/
def getRoot : Handler := fun _ _ db sess =>
  some ⟨db, sess, .redirect "/index"⟩

/-- The public pages: `res.render(view)`. -/
def renderPage (view : String) : Handler := fun _ _ db sess =>
  some ⟨db, sess, .render view⟩

/-- `app.get('/login')`. -/
def getLogin : Handler := fun _ _ db sess =>
  match sess with
  | some _ => some ⟨db, sess, .redirect "/dashboard"⟩
  | none => some ⟨db, sess, .render "login"⟩

/-- `app.get('/dashboard')`: role-branched queries, then a render. -/
def dashboard : Handler := fun env _ db sess =>
  match sess with
  | none => some ⟨db, sess, .status500 "Error loading dashboard"⟩
  | some user =>
    if user.role = "user" then
      if env.ok 0 && env.ok 1 then some ⟨db, sess, .render "dashboard"⟩
      else some ⟨db, sess, .status500 "Error loading dashboard"⟩
    else if user.role = "driver" then
      if env.ok 0 then some ⟨db, sess, .render "dashboard-driver"⟩
      else some ⟨db, sess, .status500 "Error loading dashboard"⟩
    else if user.role = "organization" then
      if env.ok 0 then some ⟨db, sess, .render "dashboard-org"⟩
      else some ⟨db, sess, .status500 "Error loading dashboard"⟩
    else some ⟨db, sess, .redirect "/login"⟩

def registerOk : String :=
  "<script>alert('Registration Successful! Redirecting...'); window.location='/login';</script>"

def driverRegisterOk : String :=
  "<script>alert('Driver registration successful!'); window.location='/login';</script>"

def orgRegisterOk : String :=
  "<script>alert('Organization registered successfully!'); window.location='/login';</script>"

def invalidCredentials : String :=
  "<script>alert('Invalid credentials!'); window.location='/login';</script>"

def bookOk : String :=
  "<script>alert('Ride booked successfully!'); window.location='/dashboard';</script>"

def confirmOk : String :=
  "<script>alert('Ride confirmed successfully!'); window.location.href='/dashboard';</script>"

def cancelOk : String :=
  "<script>alert('Ride cancelled successfully.'); window.location.href='/dashboard';</script>"

def addDriverOk : String :=
  "<script>alert('Driver added successfully!'); window.location.href='/dashboard';</script>"

def updateDriverOk : String :=
  "<script>alert('Driver updated successfully!'); window.location.href='/dashboard';</script>"

def deleteDriverOk : String :=
  "<script>alert('Driver deleted successfully!'); window.location.href='/dashboard';</script>"

def contactOk : String :=
  "<script>alert('Message received!'); window.location='/index';</script>"

/-- `app.post('/register')`: one `INSERT INTO users`. -/
def register : Handler := fun env req db sess =>
  if env.ok 0 then
    some ⟨{ db with users := db.users ++
              [{ id := env.newId, fullname := req.body.fullname, email := req.body.email,
                 password := req.body.password, phone := req.body.phone,
                 city := req.body.city }] },
          sess, .send registerOk⟩
  else some ⟨db, sess, .status500 "Error registering user."⟩

/-- `app.post('/driver-register')`: one `INSERT INTO drivers`. -/
def driverRegister : Handler := fun env req db sess =>
  let license_file := req.file.map (fun filename => "/uploads/" ++ filename)
  if env.ok 0 then
    some ⟨{ db with drivers := db.drivers ++
              [{ id := env.newId, fullname := req.body.fullname, email := req.body.email,
                 password := req.body.password, phone := req.body.phone,
                 city := req.body.city, org_type := req.body.orgOpt,
                 organization_id := req.body.orgId, license_file := license_file }] },
          sess, .send driverRegisterOk⟩
  else some ⟨db, sess, .status500 "Error registering driver."⟩

/-- `app.post('/org-register')`: one `INSERT INTO organizations`. -/
def orgRegister : Handler := fun env req db sess =>
  if env.ok 0 then
    some ⟨{ db with organizations := db.organizations ++
              [{ id := env.newId, company_name := req.body.companyName,
                 reg_number := req.body.regNumber, email := req.body.email,
                 phone := req.body.phone, password := req.body.password }] },
          sess, .send orgRegisterOk⟩
  else some ⟨db, sess, .status500 "Error registering organization."⟩

/-- `app.post('/login')`: probe `users`, `drivers`, `organizations` in turn. -/
def login : Handler := fun env req db sess =>
  let email := req.body.email
  let password := req.body.password
  if env.ok 0 then
    let userRows := db.users.filter (fun r => r.email = email ∧ r.password = password)
    match userRows with
    | r :: _ => some ⟨db, some { id := r.id, role := "user", name := r.fullname },
                      .redirect "/dashboard"⟩
    | [] =>
      if env.ok 1 then
        let driverRows := db.drivers.filter (fun r => r.email = email ∧ r.password = password)
        match driverRows with
        | r :: _ => some ⟨db, some { id := r.id, role := "driver", name := r.fullname },
                          .redirect "/dashboard"⟩
        | [] =>
          if env.ok 2 then
            let orgRows :=
              db.organizations.filter (fun r => r.email = email ∧ r.password = password)
            match orgRows with
            | r :: _ =>
              some ⟨db, some { id := r.id, role := "organization", name := r.company_name },
                    .redirect "/dashboard"⟩
            | [] => some ⟨db, sess, .send invalidCredentials⟩
          else some ⟨db, sess, .status500 "Error during login."⟩
      else some ⟨db, sess, .status500 "Error during login."⟩
  else some ⟨db, sess, .status500 "Error during login."⟩

/-- `app.post('/book')`: `SELECT id FROM drivers LIMIT 1`, then one
`INSERT INTO bookings`. -/
def book : Handler := fun env req db sess =>
  match sess with
  | none => some ⟨db, sess, .status500 "Error creating booking."⟩
  | some user =>
    let user_id := user.id
    if env.ok 0 then
      let driverRows := (db.drivers.take 1).map (fun d => d.id)
      let driver_id := driverRows.head?
      if env.ok 1 then
        some ⟨{ db with bookings := db.bookings ++
                  [{ id := env.newId, user_id := user_id, driver_id := driver_id,
                     pickup_address := req.body.pickup_address,
                     drop_address := req.body.drop_address,
                     pickup_time := req.body.pickup_time,
                     start_date := req.body.start_date, end_date := req.body.end_date,
                     status := "Scheduled", confirmed := false }] },
              sess, .send bookOk⟩
      else some ⟨db, sess, .status500 "Error creating booking."⟩
    else some ⟨db, sess, .status500 "Error creating booking."⟩

/-- The first `app.post('/confirm-ride')` callback (under DRIVER CONFIRMATION):
`UPDATE bookings SET confirmed=1, status="Confirmed" WHERE id=?`. -/
def confirmRideFirst : Handler := fun env req db sess =>
  let booking_id := req.body.booking_id
  if env.ok 0 then
    some ⟨{ db with bookings := db.bookings.map (fun b =>
              if b.id = booking_id then { b with confirmed := true, status := "Confirmed" }
              else b) },
          sess, .redirect "/dashboard"⟩
  else some ⟨db, sess, .status500 "Error confirming ride."⟩

/-- `app.post('/contact-submit')`: logs the message, no statement. -/
def contactSubmit : Handler := fun _ _ db sess =>
  some ⟨db, sess, .send contactOk⟩

/-- The second `app.post('/confirm-ride')` callback (under DRIVER CONFIRM RIDE):
`UPDATE bookings SET confirmed = 1, status = 'Confirmed', driver_id = ? WHERE id = ?`. -/
def confirmRideSecond : Handler := fun env req db sess =>
  match sess with
  | none => some ⟨db, sess, .status500 "Error confirming ride."⟩
  | some user =>
    let booking_id := req.body.booking_id
    let driver_id := user.id
    if env.ok 0 then
      some ⟨{ db with bookings := db.bookings.map (fun b =>
                if b.id = booking_id then
                  { b with confirmed := true, status := "Confirmed", driver_id := some driver_id }
                else b) },
            sess, .send confirmOk⟩
    else some ⟨db, sess, .status500 "Error confirming ride."⟩

/-- `app.post('/cancel-ride')`:
`UPDATE bookings SET status = 'Cancelled', confirmed = 0 WHERE id = ? AND user_id = ?`. -/
def cancelRide : Handler := fun env req db sess =>
  match sess with
  | none => some ⟨db, sess, .status500 "Error cancelling ride."⟩
  | some user =>
    let booking_id := req.body.booking_id
    let user_id := user.id
    if env.ok 0 then
      some ⟨{ db with bookings := db.bookings.map (fun b =>
                if b.id = booking_id ∧ b.user_id = user_id then
                  { b with status := "Cancelled", confirmed := false }
                else b) },
            sess, .send cancelOk⟩
    else some ⟨db, sess, .status500 "Error cancelling ride."⟩

/-- `app.post('/org/add-driver')`: one `INSERT INTO drivers` with
`org_type = 'Organization'`; `license_file` is not among the columns. -/
def orgAddDriver : Handler := fun env req db sess =>
  match sess with
  | none => some ⟨db, sess, .status500 "Error adding driver."⟩
  | some user =>
    let orgId := user.id
    if env.ok 0 then
      some ⟨{ db with drivers := db.drivers ++
                [{ id := env.newId, fullname := req.body.fullname, email := req.body.email,
                   password := req.body.password, phone := req.body.phone,
                   city := req.body.city, org_type := "Organization",
                   organization_id := some orgId, license_file := none }] },
            sess, .send addDriverOk⟩
    else some ⟨db, sess, .status500 "Error adding driver."⟩

/-- `app.post('/org/update-driver')`:
`UPDATE drivers SET fullname=?, email=?, phone=?, city=? WHERE id=? AND organization_id=?`. -/
def orgUpdateDriver : Handler := fun env req db sess =>
  match sess with
  | none => some ⟨db, sess, .status500 "Error updating driver."⟩
  | some user =>
    let orgId := user.id
    if env.ok 0 then
      some ⟨{ db with drivers := db.drivers.map (fun d =>
                if d.id = req.body.id ∧ d.organization_id = some orgId then
                  { d with fullname := req.body.fullname, email := req.body.email,
                           phone := req.body.phone, city := req.body.city }
                else d) },
            sess, .send updateDriverOk⟩
    else some ⟨db, sess, .status500 "Error updating driver."⟩

/-- `app.post('/org/delete-driver')`:
`DELETE FROM drivers WHERE id=? AND organization_id=?`. -/
def orgDeleteDriver : Handler := fun env req db sess =>
  match sess with
  | none => some ⟨db, sess, .status500 "Error deleting driver."⟩
  | some user =>
    let orgId := user.id
    if env.ok 0 then
      some ⟨{ db with drivers := db.drivers.filter (fun d =>
                ¬ (d.id = req.body.id ∧ d.organization_id = some orgId)) },
            sess, .send deleteDriverOk⟩
    else some ⟨db, sess, .status500 "Error deleting driver."⟩

/-- `app.get('/logout')`: the session is destroyed. -/
def logout : Handler := fun _ _ db _ =>
  some ⟨db, none, .redirect "/login"⟩

/-! ## The route table -/

/-- One `app.get` / `app.post` registration: method, path and callbacks. -/
structure Route where
  method : Method
  path : String
  stack : List Handler

/-- Run the callbacks of one route in order until one answers. -/
def runStack : List Handler → Handler
  | [], _, _, _, _ => none
  | h :: hs, env, req, db, sess =>
    match h env req db sess with
    | some o => some o
    | none => runStack hs env req db sess

/-- The registrations of `index.js`, in source order. -/
def routes : List Route :=
  [ ⟨.GET, "/", [getRoot]⟩,
    ⟨.GET, "/index", [renderPage "index"]⟩,
    ⟨.GET, "/about", [renderPage "about"]⟩,
    ⟨.GET, "/car-list", [renderPage "car-list"]⟩,
    ⟨.GET, "/contact", [renderPage "contact"]⟩,
    ⟨.GET, "/registration", [renderPage "registration"]⟩,
    ⟨.GET, "/driver-registration", [renderPage "driver-registration"]⟩,
    ⟨.GET, "/organization-registration", [renderPage "organization-registration"]⟩,
    ⟨.GET, "/login", [getLogin]⟩,
    ⟨.GET, "/dashboard", [requireLogin, dashboard]⟩,
    ⟨.POST, "/register", [register]⟩,
    ⟨.POST, "/driver-register", [driverRegister]⟩,
    ⟨.POST, "/org-register", [orgRegister]⟩,
    ⟨.POST, "/login", [login]⟩,
    ⟨.POST, "/book", [requireLogin, book]⟩,
    ⟨.POST, "/confirm-ride", [requireLogin, confirmRideFirst]⟩,
    ⟨.POST, "/contact-submit", [contactSubmit]⟩,
    ⟨.POST, "/confirm-ride", [requireLogin, confirmRideSecond]⟩,
    ⟨.POST, "/cancel-ride", [requireLogin, cancelRide]⟩,
    ⟨.POST, "/org/add-driver", [requireLogin, orgAddDriver]⟩,
    ⟨.POST, "/org/update-driver", [requireLogin, orgUpdateDriver]⟩,
    ⟨.POST, "/org/delete-driver", [requireLogin, orgDeleteDriver]⟩,
    ⟨.GET, "/logout", [logout]⟩ ]

/-- The characters of a path, letters in lower case. -/
def lowerPath (p : String) : List Char :=
  p.data.map Char.toLower

/-- The path test of a route of the default Express application (`express()`
with neither `case sensitive routing` nor `strict routing` set): letters are
compared without regard to case, and one trailing slash is optional. -/
def pathMatches (route p : String) : Bool :=
  if (lowerPath route).getLast? = some '/' then
    lowerPath p = lowerPath route ∨ lowerPath p = (lowerPath route).dropLast
  else
    lowerPath p = lowerPath route ∨ lowerPath p = lowerPath route ++ ['/']

/-- The method test of a route: its own verb, and `HEAD` for an `app.get` route. -/
def methodMatches (route m : Method) : Bool :=
  route = m || (m = .HEAD && route = .GET)

/-- A registration matches a request by method and path. -/
def routeMatches (r : Route) (req : Request) : Bool :=
  methodMatches r.method req.method && pathMatches r.path req.path

/-- Express dispatch: the routes are tried in registration order; a route whose
method and path match runs its callbacks, and a later route is reached only
when every callback of the earlier ones called `next()`. -/
def dispatch : List Route → Env → Request → DB → Option Identity → Outcome
  | [], _, _, db, sess => ⟨db, sess, .notFound⟩
  | r :: rs, env, req, db, sess =>
    if routeMatches r req then
      match runStack r.stack env req db sess with
      | some o => o
      | none => dispatch rs env req db sess
    else dispatch rs env req db sess

/-- Serving one request. -/
def handle (env : Env) (req : Request) (db : DB) (sess : Option Identity) : Outcome :=
  dispatch routes env req db sess

/-! ## The server: many sessions, sequences of requests -/

/-- The server state: the store and the session store (cookie token to identity). -/
structure State where
  db : DB
  sessions : Nat → Option Identity

/-- A request as the server receives it: the session cookie, what the store
does with its statements, and the request itself. -/
structure Call where
  token : Nat
  env : Env
  req : Request

/-- Serve one request in the session of its cookie. -/
def step (s : State) (c : Call) : State :=
  let o := handle c.env c.req s.db (s.sessions c.token)
  { db := o.db, sessions := Function.update s.sessions c.token o.session }

/-- Serve a sequence of requests. -/
def run (s : State) (cs : List Call) : State :=
  cs.foldl step s

/-- The store with all four tables empty. -/
def emptyDB : DB := ⟨[], [], [], []⟩

/-- A freshly started server: no session has an identity. -/
def freshState (db : DB) : State := ⟨db, fun _ => none⟩

/-- Modelled from the spec: the table declarations are not in the source. A
store that executes every statement and gives inserted rows the id `n`. It
rejects no row for the id it refers to: in the spec (4.5, 9) deleting a driver
leaves the bookings that reference it, so references between tables are not
enforced by the store. -/
def allOk (n : Nat) : Env := ⟨fun _ => true, n⟩

/-! ## Vocabulary of the statements -/

/-- The test `email=? AND password=?` on a `users` row. -/
def credU (email password : String) (r : User) : Bool :=
  r.email = email ∧ r.password = password

/-- The test `email=? AND password=?` on a `drivers` row. -/
def credD (email password : String) (r : Driver) : Bool :=
  r.email = email ∧ r.password = password

/-- The test `email=? AND password=?` on an `organizations` row. -/
def credO (email password : String) (r : Organization) : Bool :=
  r.email = email ∧ r.password = password

/-- The driver rows that do not belong to the organization `org`, in table order. -/
def othersDrivers (org : Nat) (ds : List Driver) : List Driver :=
  ds.filter (fun d => d.organization_id ≠ some org)

/-- The routes registered behind `requireLogin`. -/
def protectedRoutes : List (Method × String) :=
  [(.GET, "/dashboard"), (.POST, "/book"), (.POST, "/confirm-ride"), (.POST, "/cancel-ride"),
   (.POST, "/org/add-driver"), (.POST, "/org/update-driver"), (.POST, "/org/delete-driver")]

/-- The tables other than `drivers` are the same in `a` and `b`. -/
def sameButDrivers (a b : DB) : Prop :=
  a.users = b.users ∧ a.organizations = b.organizations ∧ a.bookings = b.bookings

instance (a b : DB) : Decidable (sameButDrivers a b) := by
  unfold sameButDrivers
  infer_instance

/-- What serving one request can do to the users table, the bookings table
and the session: users are only appended; the bookings are kept, or get one row
appended for the caller by `POST /book`, or are rewritten row by row by
`POST /confirm-ride` or `POST /cancel-ride`; the session is kept, destroyed,
or set by a login. -/
def Effect (req : Request) (db : DB) (sess : Option Identity) (o : Outcome) : Prop :=
  (∃ us, o.db.users = db.users ++ us) ∧
  (o.db.bookings = db.bookings ∨
    (∃ u b, sess = some u ∧ req.method = .POST ∧ pathMatches "/book" req.path = true ∧
      b.user_id = u.id ∧ o.db.bookings = db.bookings ++ [b]) ∨
    (req.method = .POST ∧ pathMatches "/confirm-ride" req.path = true ∧
      ∃ f : Booking → Booking,
        (∀ b, (f b).id = b.id ∧ (f b).user_id = b.user_id ∧
          (f b = b ∨ (b.id = req.body.booking_id ∧ (f b).status = "Confirmed"))) ∧
        o.db.bookings = db.bookings.map f) ∨
    (∃ u, sess = some u ∧ req.method = .POST ∧ pathMatches "/cancel-ride" req.path = true ∧
      o.db.bookings = db.bookings.map (fun b =>
        if b.id = req.body.booking_id ∧ b.user_id = u.id then
          { b with status := "Cancelled", confirmed := false }
        else b))) ∧
  (o.session = sess ∨ o.session = none ∨
    (∃ r ∈ db.users, o.session = some ⟨r.id, "user", r.fullname⟩) ∨
    (∃ i, o.session = some i ∧ i.role ≠ "user"))

/-- The request `c`, served in state `s`, is not a `POST` routed to `/book` made
in a session whose role is other than `user`. -/
def userBooks (s : State) (c : Call) : Bool :=
  if c.req.method = .POST ∧ pathMatches "/book" c.req.path = true then
    match s.sessions c.token with
    | some i => i.role = "user"
    | none => true
  else true

/-- Along the whole sequence, `POST /book` is only made in sessions of role `user`. -/
def userBooksOnly : State → List Call → Bool
  | _, [] => true
  | s, c :: cs => userBooks s c && userBooksOnly (step s c) cs

/-- Every booking references a users row, and so does every session of role `user`. -/
def Inv (s : State) : Prop :=
  (∀ b ∈ s.db.bookings, ∃ u ∈ s.db.users, u.id = b.user_id) ∧
  (∀ t i, s.sessions t = some i → i.role = "user" → ∃ u ∈ s.db.users, u.id = i.id)

/-! ## Sample data -/

/-- Form of the rider Alice (registration and login). -/
def aliceBody : Body :=
  { fullname := "Alice", email := "a@x.com", password := "p1", phone := "1", city := "X" }

/-- Form of the driver Dan (registration and login). -/
def danBody : Body :=
  { fullname := "Dan", email := "d@x.com", password := "p2", phone := "2", city := "X",
    orgOpt := "Independent" }

/-- Form of a ride request. -/
def rideBody : Body :=
  { pickup_address := "A", drop_address := "B", pickup_time := "10:00",
    start_date := "2024-01-01", end_date := "2024-01-02" }

/-- Forms of two organizations. -/
def orgOneBody : Body :=
  { companyName := "Org One", regNumber := "R1", email := "o1@x.com", phone := "11",
    password := "q1" }

def orgTwoBody : Body :=
  { companyName := "Org Two", regNumber := "R2", email := "o2@x.com", phone := "22",
    password := "q2" }

/-- Forms of the drivers the two organizations add. -/
def staffOneBody : Body :=
  { fullname := "Sam", email := "s1@x.com", password := "w1", phone := "31", city := "X" }

def staffTwoBody : Body :=
  { fullname := "Tom", email := "s2@x.com", password := "w2", phone := "32", city := "Y" }

/-- Session identities of Alice (rider), Dan and Eve (drivers), Org One. -/
def alice : Identity := ⟨1, "user", "Alice"⟩

def dan : Identity := ⟨1, "driver", "Dan"⟩

def eve : Identity := ⟨2, "driver", "Eve"⟩

def orgOne : Identity := ⟨1, "organization", "Org One"⟩

/-- The ride of Alice as `POST /book` stores it, assigned to driver 1. -/
def ride : Booking :=
  ⟨1, 1, some 1, "A", "B", "10:00", "2024-01-01", "2024-01-02", "Scheduled", false⟩

/-- One rider, two drivers, one scheduled ride of the rider assigned to driver 1. -/
def sampleDB : DB :=
  { users := [⟨1, "Alice", "a@x.com", "p1", "1", "X"⟩],
    drivers := [⟨1, "Dan", "d@x.com", "p2", "2", "X", "Independent", none, none⟩,
                ⟨2, "Eve", "e@x.com", "p3", "3", "X", "Independent", none, none⟩],
    organizations := [],
    bookings := [ride] }

/-- The store of `sampleDB` with driver 1 on the staff of organization 1. -/
def staffedDB : DB :=
  { sampleDB with
    drivers := [⟨1, "Dan", "d@x.com", "p2", "2", "X", "Organization", some 1, none⟩],
    organizations := [⟨1, "Org One", "R1", "o1@x.com", "11", "q1"⟩] }

/-- The store of `sampleDB` after Alice cancelled her ride. -/
def cancelledDB : DB :=
  { sampleDB with bookings := [{ ride with status := "Cancelled" }] }

/-- Alice registers and logs in, then books a ride. -/
def riderBooks : List Call :=
  [ ⟨0, allOk 1, ⟨.POST, "/register", aliceBody, none⟩⟩,
    ⟨0, allOk 0, ⟨.POST, "/login", aliceBody, none⟩⟩,
    ⟨0, allOk 1, ⟨.POST, "/book", rideBody, none⟩⟩ ]

/-- Dan registers as a driver and logs in, then posts the booking form himself. -/
def driverBooks : List Call :=
  [ ⟨0, allOk 1, ⟨.POST, "/driver-register", danBody, none⟩⟩,
    ⟨0, allOk 0, ⟨.POST, "/login", danBody, none⟩⟩,
    ⟨0, allOk 1, ⟨.POST, "/book", rideBody, none⟩⟩ ]

/-- The requests of `driverBooks`, the booking form posted to `/BOOK/`. -/
def driverBooksSlash : List Call :=
  [ ⟨0, allOk 1, ⟨.POST, "/driver-register", danBody, none⟩⟩,
    ⟨0, allOk 0, ⟨.POST, "/login", danBody, none⟩⟩,
    ⟨0, allOk 1, ⟨.POST, "/BOOK/", rideBody, none⟩⟩ ]

/-- Alice (rider, id 1) and Dan (driver, id 1) register; Alice logs in and books a
ride; Dan logs in, in a session of his own. -/
def riderAndDriver : List Call :=
  [ ⟨0, allOk 1, ⟨.POST, "/register", aliceBody, none⟩⟩,
    ⟨1, allOk 1, ⟨.POST, "/driver-register", danBody, none⟩⟩,
    ⟨0, allOk 0, ⟨.POST, "/login", aliceBody, none⟩⟩,
    ⟨0, allOk 1, ⟨.POST, "/book", rideBody, none⟩⟩,
    ⟨1, allOk 0, ⟨.POST, "/login", danBody, none⟩⟩ ]

/-- Two organizations register and log in, and each adds one driver. -/
def twoOrgs : List Call :=
  [ ⟨1, allOk 1, ⟨.POST, "/org-register", orgOneBody, none⟩⟩,
    ⟨2, allOk 2, ⟨.POST, "/org-register", orgTwoBody, none⟩⟩,
    ⟨1, allOk 0, ⟨.POST, "/login", orgOneBody, none⟩⟩,
    ⟨2, allOk 0, ⟨.POST, "/login", orgTwoBody, none⟩⟩,
    ⟨1, allOk 1, ⟨.POST, "/org/add-driver", staffOneBody, none⟩⟩,
    ⟨2, allOk 2, ⟨.POST, "/org/add-driver", staffTwoBody, none⟩⟩ ]

/-- The driver row Org Two added in `twoOrgs`. -/
def staffTwo : Driver :=
  ⟨2, "Tom", "s2@x.com", "w2", "32", "Y", "Organization", some 2, none⟩

/-! ## Serving a request of each route -/

/-- Route: `POST /register` ends in `register`. -/
theorem handle_register (env : Env) (body : Body) (file : Option String) (db : DB)
    (sess : Option Identity) :
    handle env ⟨.POST, "/register", body, file⟩ db sess =
      if env.ok 0 then
        ⟨{ db with users := db.users ++
             [{ id := env.newId, fullname := body.fullname, email := body.email,
                password := body.password, phone := body.phone, city := body.city }] },
         sess, .send registerOk⟩
      else ⟨db, sess, .status500 "Error registering user."⟩ := by
  cases h0 : env.ok 0 <;> simp [handle, routes, dispatch, routeMatches, methodMatches, pathMatches, lowerPath,
      runStack, register, h0]

/-- Route: `POST /driver-register` ends in `driverRegister`. -/
theorem handle_driver_register (env : Env) (body : Body) (file : Option String) (db : DB)
    (sess : Option Identity) :
    handle env ⟨.POST, "/driver-register", body, file⟩ db sess =
      if env.ok 0 then
        ⟨{ db with drivers := db.drivers ++
             [{ id := env.newId, fullname := body.fullname, email := body.email,
                password := body.password, phone := body.phone, city := body.city,
                org_type := body.orgOpt, organization_id := body.orgId,
                license_file := file.map (fun filename => "/uploads/" ++ filename) }] },
         sess, .send driverRegisterOk⟩
      else ⟨db, sess, .status500 "Error registering driver."⟩ := by
  cases h0 : env.ok 0 <;> simp [handle, routes, dispatch, routeMatches, methodMatches, pathMatches, lowerPath,
      runStack, driverRegister, h0]

/-- Route: `POST /org-register` ends in `orgRegister`. -/
theorem handle_org_register (env : Env) (body : Body) (file : Option String) (db : DB)
    (sess : Option Identity) :
    handle env ⟨.POST, "/org-register", body, file⟩ db sess =
      if env.ok 0 then
        ⟨{ db with organizations := db.organizations ++
             [{ id := env.newId, company_name := body.companyName,
                reg_number := body.regNumber, email := body.email, phone := body.phone,
                password := body.password }] },
         sess, .send orgRegisterOk⟩
      else ⟨db, sess, .status500 "Error registering organization."⟩ := by
  cases h0 : env.ok 0 <;> simp [handle, routes, dispatch, routeMatches, methodMatches, pathMatches, lowerPath,
      runStack, orgRegister, h0]

/-- Route: `POST /book` with a session ends in `book`. -/
theorem handle_book (env : Env) (body : Body) (file : Option String) (db : DB)
    (u : Identity) :
    handle env ⟨.POST, "/book", body, file⟩ db (some u) =
      if env.ok 0 ∧ env.ok 1 then
        ⟨{ db with bookings := db.bookings ++
             [{ id := env.newId, user_id := u.id,
                driver_id := ((db.drivers.take 1).map (fun d => d.id)).head?,
                pickup_address := body.pickup_address, drop_address := body.drop_address,
                pickup_time := body.pickup_time, start_date := body.start_date,
                end_date := body.end_date, status := "Scheduled", confirmed := false }] },
         some u, .send bookOk⟩
      else ⟨db, some u, .status500 "Error creating booking."⟩ := by
  cases h0 : env.ok 0 <;> cases h1 : env.ok 1 <;>
    simp [handle, routes, dispatch, routeMatches, methodMatches, pathMatches, lowerPath,
      runStack, requireLogin, book, h0, h1]

/-- Route: `POST /confirm-ride` with a session is answered by the first registration. -/
theorem handle_confirm_ride (env : Env) (body : Body) (file : Option String) (db : DB)
    (u : Identity) :
    handle env ⟨.POST, "/confirm-ride", body, file⟩ db (some u) =
      if env.ok 0 then
        ⟨{ db with bookings := db.bookings.map (fun b =>
             if b.id = body.booking_id then { b with confirmed := true, status := "Confirmed" }
             else b) }, some u, .redirect "/dashboard"⟩
      else ⟨db, some u, .status500 "Error confirming ride."⟩ := by
  cases hok : env.ok 0 <;>
    simp [handle, routes, dispatch, routeMatches, methodMatches, pathMatches, lowerPath,
      runStack, requireLogin, confirmRideFirst, hok]

/-- Route: a `POST` whose path matches `/confirm-ride`, whatever its letter case
and trailing slash, is answered by the first registration too. -/
theorem handle_confirm_ride_routed (env : Env) (req : Request) (db : DB) (u : Identity)
    (hm : req.method = .POST) (hp : pathMatches "/confirm-ride" req.path = true) :
    handle env req db (some u) =
      if env.ok 0 then
        ⟨{ db with bookings := db.bookings.map (fun b =>
             if b.id = req.body.booking_id then
               { b with confirmed := true, status := "Confirmed" }
             else b) }, some u, .redirect "/dashboard"⟩
      else ⟨db, some u, .status500 "Error confirming ride."⟩ := by
  simp [pathMatches, lowerPath] at hp
  rcases hp with hp | hp <;> cases hok : env.ok 0 <;>
    simp [handle, routes, dispatch, routeMatches, methodMatches, pathMatches, lowerPath,
      runStack, requireLogin, confirmRideFirst, hok, hm, hp]

/-- Route: `POST /cancel-ride` with a session ends in `cancelRide`. -/
theorem handle_cancel_ride (env : Env) (body : Body) (file : Option String) (db : DB)
    (u : Identity) :
    handle env ⟨.POST, "/cancel-ride", body, file⟩ db (some u) =
      if env.ok 0 then
        ⟨{ db with bookings := db.bookings.map (fun b =>
             if b.id = body.booking_id ∧ b.user_id = u.id then
               { b with status := "Cancelled", confirmed := false }
             else b) }, some u, .send cancelOk⟩
      else ⟨db, some u, .status500 "Error cancelling ride."⟩ := by
  cases hok : env.ok 0 <;>
    simp [handle, routes, dispatch, routeMatches, methodMatches, pathMatches, lowerPath,
      runStack, requireLogin, cancelRide, hok]

/-- Route: `POST /org/add-driver` with a session ends in `orgAddDriver`. -/
theorem handle_add_driver (env : Env) (body : Body) (file : Option String) (db : DB)
    (u : Identity) :
    handle env ⟨.POST, "/org/add-driver", body, file⟩ db (some u) =
      if env.ok 0 then
        ⟨{ db with drivers := db.drivers ++
             [{ id := env.newId, fullname := body.fullname, email := body.email,
                password := body.password, phone := body.phone, city := body.city,
                org_type := "Organization", organization_id := some u.id,
                license_file := none }] }, some u, .send addDriverOk⟩
      else ⟨db, some u, .status500 "Error adding driver."⟩ := by
  cases h0 : env.ok 0 <;>
    simp [handle, routes, dispatch, routeMatches, methodMatches, pathMatches, lowerPath,
      runStack, requireLogin, orgAddDriver, h0]

/-- Route: `POST /org/update-driver` with a session ends in `orgUpdateDriver`. -/
theorem handle_update_driver (env : Env) (body : Body) (file : Option String) (db : DB)
    (u : Identity) :
    handle env ⟨.POST, "/org/update-driver", body, file⟩ db (some u) =
      if env.ok 0 then
        ⟨{ db with drivers := db.drivers.map (fun d =>
             if d.id = body.id ∧ d.organization_id = some u.id then
               { d with fullname := body.fullname, email := body.email,
                        phone := body.phone, city := body.city }
             else d) }, some u, .send updateDriverOk⟩
      else ⟨db, some u, .status500 "Error updating driver."⟩ := by
  cases h0 : env.ok 0 <;>
    simp [handle, routes, dispatch, routeMatches, methodMatches, pathMatches, lowerPath,
      runStack, requireLogin, orgUpdateDriver, h0]

/-- Route: `POST /org/delete-driver` with a session ends in `orgDeleteDriver`. -/
theorem handle_delete_driver (env : Env) (body : Body) (file : Option String) (db : DB)
    (u : Identity) :
    handle env ⟨.POST, "/org/delete-driver", body, file⟩ db (some u) =
      if env.ok 0 then
        ⟨{ db with drivers := db.drivers.filter (fun d =>
             ¬ (d.id = body.id ∧ d.organization_id = some u.id)) },
         some u, .send deleteDriverOk⟩
      else ⟨db, some u, .status500 "Error deleting driver."⟩ := by
  cases h0 : env.ok 0 <;>
    simp [handle, routes, dispatch, routeMatches, methodMatches, pathMatches, lowerPath,
      runStack, requireLogin, orgDeleteDriver, h0]

/-! ## Selecting the first matching row -/

/-- The head of a filtered list is what `find?` returns. -/
theorem filter_cases {α : Type} (p : α → Bool) (l : List α) :
    (l.filter p = [] ∧ l.find? p = none) ∨
    (∃ r rs, l.filter p = r :: rs ∧ l.find? p = some r) := by
  induction l with
  | nil => simp
  | cons a l ih =>
    cases hp : p a
    · simpa [List.filter_cons, List.find?_cons, hp] using ih
    · simp [List.filter_cons, List.find?_cons, hp]

/-- Appending a matching row: the first match is the first earlier match, else
the new row. -/
theorem find_append_new {α : Type} (p : α → Bool) (l : List α) (x : α) (hx : p x = true) :
    (l ++ [x]).find? p = some ((l.find? p).getD x) := by
  induction l with
  | nil => simp [List.find?_cons, hx]
  | cons a l ih =>
    cases ha : p a
    · simp only [List.cons_append, List.find?_cons, ha]; exact ih
    · simp [List.find?_cons, ha]

/-- Without a matching row `find?` finds nothing. -/
theorem find_none_of_no_match {α : Type} (p : α → Bool) (l : List α)
    (h : ∀ y ∈ l, p y = false) : l.find? p = none := by
  rw [List.find?_eq_none]
  intro y hy
  simp [h y hy]

/-- Route: `POST /login` when the store answers every query. -/
theorem handle_login (env : Env) (body : Body) (file : Option String) (db : DB)
    (sess : Option Identity) (hok : ∀ k, env.ok k = true) :
    handle env ⟨.POST, "/login", body, file⟩ db sess =
      match db.users.find? (credU body.email body.password) with
      | some r => ⟨db, some ⟨r.id, "user", r.fullname⟩, .redirect "/dashboard"⟩
      | none =>
        match db.drivers.find? (credD body.email body.password) with
        | some r => ⟨db, some ⟨r.id, "driver", r.fullname⟩, .redirect "/dashboard"⟩
        | none =>
          match db.organizations.find? (credO body.email body.password) with
          | some r => ⟨db, some ⟨r.id, "organization", r.company_name⟩, .redirect "/dashboard"⟩
          | none => ⟨db, sess, .send invalidCredentials⟩ := by
  have eU : credU body.email body.password =
      fun r => decide (r.email = body.email) && decide (r.password = body.password) := by
    funext r; simp [credU]
  have eD : credD body.email body.password =
      fun r => decide (r.email = body.email) && decide (r.password = body.password) := by
    funext r; simp [credD]
  have eO : credO body.email body.password =
      fun r => decide (r.email = body.email) && decide (r.password = body.password) := by
    funext r; simp [credO]
  rw [eU, eD, eO]
  have hU := filter_cases
    (fun r : User => decide (r.email = body.email) && decide (r.password = body.password))
    db.users
  have hD := filter_cases
    (fun r : Driver => decide (r.email = body.email) && decide (r.password = body.password))
    db.drivers
  have hO := filter_cases
    (fun r : Organization => decide (r.email = body.email) && decide (r.password = body.password))
    db.organizations
  simp only [handle, routes, dispatch, runStack, login, hok]
  simp [routeMatches, methodMatches, pathMatches, lowerPath]
  rcases hU with ⟨hU, hU2⟩ | ⟨r, rs, hU, hU2⟩
  · rw [hU, hU2]
    rcases hD with ⟨hD, hD2⟩ | ⟨r, rs, hD, hD2⟩
    · rw [hD, hD2]
      rcases hO with ⟨hO, hO2⟩ | ⟨r, rs, hO, hO2⟩
      · rw [hO, hO2]
      · rw [hO, hO2]
    · rw [hD, hD2]
  · rw [hU, hU2]

/-! ## Every route at once -/

/-- An answer of a callback stack is the answer of one of its callbacks. -/
theorem runStack_some (hs : List Handler) (env : Env) (req : Request) (db : DB)
    (sess : Option Identity) (o : Outcome) (h : runStack hs env req db sess = some o) :
    ∃ hd ∈ hs, hd env req db sess = some o := by
  induction hs with
  | nil => simp [runStack] at h
  | cons a hs ih =>
    simp only [runStack] at h
    cases ha : a env req db sess with
    | some o2 =>
      rw [ha] at h
      exact ⟨a, List.mem_cons_self _ _, by rw [ha]; exact h⟩
    | none =>
      rw [ha] at h
      obtain ⟨hd, hmem, hhd⟩ := ih h
      exact ⟨hd, List.mem_cons_of_mem _ hmem, hhd⟩

/-- A property of the outcome holds for `dispatch` when it holds for the 404
answer and for every answer of a callback of a matching route. -/
theorem dispatch_ind (Q : Outcome → Prop) (env : Env) (req : Request) (db : DB)
    (sess : Option Identity) (rs : List Route) (h0 : Q ⟨db, sess, .notFound⟩)
    (h : ∀ r ∈ rs, routeMatches r req = true →
      ∀ hd ∈ r.stack, ∀ o, hd env req db sess = some o → Q o) :
    Q (dispatch rs env req db sess) := by
  induction rs with
  | nil => exact h0
  | cons r rs ih =>
    have ih2 := ih (fun r2 hr2 => h r2 (List.mem_cons_of_mem _ hr2))
    simp only [dispatch]
    split
    · rename_i hmatch
      cases hrun : runStack r.stack env req db sess with
      | some o =>
        obtain ⟨hd, hmem, hhd⟩ := runStack_some _ _ _ _ _ _ hrun
        exact h r (List.mem_cons_self _ _) hmatch hd hmem o hhd
      | none => exact ih2
    · exact ih2

/-- A request that matches a `POST` route is a `POST` whose path matches. -/
theorem post_route_matches (p : String) (stack : List Handler) (req : Request)
    (h : routeMatches ⟨.POST, p, stack⟩ req = true) :
    req.method = .POST ∧ pathMatches p req.path = true := by
  simp only [routeMatches, methodMatches, Bool.and_eq_true, Bool.or_eq_true,
    decide_eq_true_eq] at h
  rcases h with ⟨h1 | ⟨-, h1⟩, h2⟩
  · exact ⟨h1.symm, h2⟩
  · cases h1

/-- An outcome that keeps users, bookings and session has the effect `Effect`. -/
theorem effect_of_same (req : Request) (db : DB) (sess : Option Identity) (o : Outcome)
    (hu : o.db.users = db.users) (hb : o.db.bookings = db.bookings) (hs : o.session = sess) :
    Effect req db sess o :=
  ⟨⟨[], by simp [hu]⟩, Or.inl hb, Or.inl hs⟩

/-- Effect of the callback `requireLogin`. -/
theorem effect_requireLogin (env : Env) (req : Request) (db : DB) (sess : Option Identity)
    (o : Outcome) (ho : requireLogin env req db sess = some o) : Effect req db sess o := by
  unfold requireLogin at ho
  split at ho <;> simp at ho
  subst ho
  exact effect_of_same _ _ _ _ rfl rfl rfl

/-- Effect of the callback `getRoot`. -/
theorem effect_getRoot (env : Env) (req : Request) (db : DB) (sess : Option Identity)
    (o : Outcome) (ho : getRoot env req db sess = some o) : Effect req db sess o := by
  simp [getRoot] at ho
  subst ho
  exact effect_of_same _ _ _ _ rfl rfl rfl

/-- Effect of the callback `renderPage`. -/
theorem effect_renderPage (v : String) (env : Env) (req : Request) (db : DB)
    (sess : Option Identity) (o : Outcome) (ho : renderPage v env req db sess = some o) :
    Effect req db sess o := by
  simp [renderPage] at ho
  subst ho
  exact effect_of_same _ _ _ _ rfl rfl rfl

/-- Effect of the callback `getLogin`. -/
theorem effect_getLogin (env : Env) (req : Request) (db : DB) (sess : Option Identity)
    (o : Outcome) (ho : getLogin env req db sess = some o) : Effect req db sess o := by
  unfold getLogin at ho
  split at ho <;> simp at ho <;> subst ho <;> exact effect_of_same _ _ _ _ rfl rfl rfl

/-- Effect of the callback `contactSubmit`. -/
theorem effect_contactSubmit (env : Env) (req : Request) (db : DB) (sess : Option Identity)
    (o : Outcome) (ho : contactSubmit env req db sess = some o) : Effect req db sess o := by
  simp [contactSubmit] at ho
  subst ho
  exact effect_of_same _ _ _ _ rfl rfl rfl

/-- Effect of the callback `dashboard`. -/
theorem effect_dashboard (env : Env) (req : Request) (db : DB) (sess : Option Identity)
    (o : Outcome) (ho : dashboard env req db sess = some o) : Effect req db sess o := by
  unfold dashboard at ho
  split at ho
  · simp at ho; subst ho; exact effect_of_same _ _ _ _ rfl rfl rfl
  · split_ifs at ho <;> simp at ho <;> subst ho <;> exact effect_of_same _ _ _ _ rfl rfl rfl

/-- Effect of the callback `register`. -/
theorem effect_register (env : Env) (req : Request) (db : DB) (sess : Option Identity)
    (o : Outcome) (ho : register env req db sess = some o) : Effect req db sess o := by
  unfold register at ho
  split_ifs at ho <;> simp at ho <;> subst ho
  · exact ⟨⟨_, rfl⟩, Or.inl rfl, Or.inl rfl⟩
  · exact effect_of_same _ _ _ _ rfl rfl rfl

/-- Effect of the callback `driverRegister`. -/
theorem effect_driverRegister (env : Env) (req : Request) (db : DB) (sess : Option Identity)
    (o : Outcome) (ho : driverRegister env req db sess = some o) : Effect req db sess o := by
  unfold driverRegister at ho
  split_ifs at ho <;> simp at ho <;> subst ho <;> exact effect_of_same _ _ _ _ rfl rfl rfl

/-- Effect of the callback `orgRegister`. -/
theorem effect_orgRegister (env : Env) (req : Request) (db : DB) (sess : Option Identity)
    (o : Outcome) (ho : orgRegister env req db sess = some o) : Effect req db sess o := by
  unfold orgRegister at ho
  split_ifs at ho <;> simp at ho <;> subst ho <;> exact effect_of_same _ _ _ _ rfl rfl rfl

/-- Effect of the callback `login`. -/
theorem effect_login (env : Env) (req : Request) (db : DB) (sess : Option Identity)
    (o : Outcome) (ho : login env req db sess = some o) : Effect req db sess o := by
  unfold login at ho
  simp only at ho
  by_cases h0 : env.ok 0 = true
  · rw [if_pos h0] at ho
    split at ho
    · next r rs hf =>
      simp at ho; subst ho
      have hr : r ∈ db.users := by
        have : r ∈ List.filter (fun r => decide (r.email = req.body.email ∧
            r.password = req.body.password)) db.users := by rw [hf]; simp
        exact (List.mem_filter.1 this).1
      exact ⟨⟨[], by simp⟩, Or.inl rfl, Or.inr (Or.inr (Or.inl ⟨r, hr, rfl⟩))⟩
    · by_cases h1 : env.ok 1 = true
      · rw [if_pos h1] at ho
        split at ho
        · simp at ho; subst ho
          exact ⟨⟨[], by simp⟩, Or.inl rfl, Or.inr (Or.inr (Or.inr ⟨_, rfl, by simp⟩))⟩
        · by_cases h2 : env.ok 2 = true
          · rw [if_pos h2] at ho
            split at ho
            · simp at ho; subst ho
              exact ⟨⟨[], by simp⟩, Or.inl rfl, Or.inr (Or.inr (Or.inr ⟨_, rfl, by simp⟩))⟩
            · simp at ho; subst ho; exact effect_of_same _ _ _ _ rfl rfl rfl
          · rw [if_neg h2] at ho
            simp at ho; subst ho; exact effect_of_same _ _ _ _ rfl rfl rfl
      · rw [if_neg h1] at ho
        simp at ho; subst ho; exact effect_of_same _ _ _ _ rfl rfl rfl
  · rw [if_neg h0] at ho
    simp at ho; subst ho; exact effect_of_same _ _ _ _ rfl rfl rfl

/-- Effect of the callback `book`. -/
theorem effect_book (env : Env) (req : Request) (db : DB) (sess : Option Identity)
    (o : Outcome) (hm : req.method = .POST) (hp : pathMatches "/book" req.path = true)
    (ho : book env req db sess = some o) : Effect req db sess o := by
  unfold book at ho
  split at ho
  · simp at ho; subst ho; exact effect_of_same _ _ _ _ rfl rfl rfl
  · rename_i user
    simp only at ho
    split_ifs at ho <;> simp at ho <;> subst ho
    · exact ⟨⟨[], by simp⟩, Or.inr (Or.inl ⟨user, _, rfl, hm, hp, rfl, rfl⟩), Or.inl rfl⟩
    · exact effect_of_same _ _ _ _ rfl rfl rfl
    · exact effect_of_same _ _ _ _ rfl rfl rfl

/-- Effect of the callback `confirmRideFirst`. -/
theorem effect_confirmRideFirst (env : Env) (req : Request) (db : DB)
    (sess : Option Identity) (o : Outcome) (hm : req.method = .POST)
    (hp : pathMatches "/confirm-ride" req.path = true) (ho : confirmRideFirst env req db sess = some o) :
    Effect req db sess o := by
  unfold confirmRideFirst at ho
  simp only at ho
  split_ifs at ho <;> simp at ho <;> subst ho
  · refine ⟨⟨[], by simp⟩, Or.inr (Or.inr (Or.inl ⟨hm, hp, _, ?_, rfl⟩)), Or.inl rfl⟩
    intro b; by_cases h : b.id = req.body.booking_id <;> simp [h]
  · exact effect_of_same _ _ _ _ rfl rfl rfl

/-- Effect of the callback `confirmRideSecond`. -/
theorem effect_confirmRideSecond (env : Env) (req : Request) (db : DB)
    (sess : Option Identity) (o : Outcome) (hm : req.method = .POST)
    (hp : pathMatches "/confirm-ride" req.path = true) (ho : confirmRideSecond env req db sess = some o) :
    Effect req db sess o := by
  unfold confirmRideSecond at ho
  split at ho
  · simp at ho; subst ho; exact effect_of_same _ _ _ _ rfl rfl rfl
  · simp only at ho
    split_ifs at ho <;> simp at ho <;> subst ho
    · refine ⟨⟨[], by simp⟩, Or.inr (Or.inr (Or.inl ⟨hm, hp, _, ?_, rfl⟩)), Or.inl rfl⟩
      intro b; by_cases h : b.id = req.body.booking_id <;> simp [h]
    · exact effect_of_same _ _ _ _ rfl rfl rfl

/-- Effect of the callback `cancelRide`. -/
theorem effect_cancelRide (env : Env) (req : Request) (db : DB)
    (sess : Option Identity) (o : Outcome) (hm : req.method = .POST)
    (hp : pathMatches "/cancel-ride" req.path = true) (ho : cancelRide env req db sess = some o) :
    Effect req db sess o := by
  unfold cancelRide at ho
  split at ho
  · simp at ho; subst ho; exact effect_of_same _ _ _ _ rfl rfl rfl
  · rename_i user
    simp only at ho
    split_ifs at ho <;> simp at ho <;> subst ho
    · exact ⟨⟨[], by simp⟩, Or.inr (Or.inr (Or.inr ⟨user, rfl, hm, hp, by simp⟩)), Or.inl rfl⟩
    · exact effect_of_same _ _ _ _ rfl rfl rfl

/-- Effect of the callback `orgAddDriver`. -/
theorem effect_orgAddDriver (env : Env) (req : Request) (db : DB) (sess : Option Identity)
    (o : Outcome) (ho : orgAddDriver env req db sess = some o) : Effect req db sess o := by
  unfold orgAddDriver at ho
  split at ho
  · simp at ho; subst ho; exact effect_of_same _ _ _ _ rfl rfl rfl
  · simp only at ho
    split_ifs at ho <;> simp at ho <;> subst ho <;> exact effect_of_same _ _ _ _ rfl rfl rfl

/-- Effect of the callback `orgUpdateDriver`. -/
theorem effect_orgUpdateDriver (env : Env) (req : Request) (db : DB)
    (sess : Option Identity) (o : Outcome) (ho : orgUpdateDriver env req db sess = some o) :
    Effect req db sess o := by
  unfold orgUpdateDriver at ho
  split at ho
  · simp at ho; subst ho; exact effect_of_same _ _ _ _ rfl rfl rfl
  · simp only at ho
    split_ifs at ho <;> simp at ho <;> subst ho <;> exact effect_of_same _ _ _ _ rfl rfl rfl

/-- Effect of the callback `orgDeleteDriver`. -/
theorem effect_orgDeleteDriver (env : Env) (req : Request) (db : DB)
    (sess : Option Identity) (o : Outcome) (ho : orgDeleteDriver env req db sess = some o) :
    Effect req db sess o := by
  unfold orgDeleteDriver at ho
  split at ho
  · simp at ho; subst ho; exact effect_of_same _ _ _ _ rfl rfl rfl
  · simp only at ho
    split_ifs at ho <;> simp at ho <;> subst ho <;> exact effect_of_same _ _ _ _ rfl rfl rfl

/-- Effect of the callback `logout`. -/
theorem effect_logout (env : Env) (req : Request) (db : DB) (sess : Option Identity)
    (o : Outcome) (ho : logout env req db sess = some o) : Effect req db sess o := by
  simp [logout] at ho
  subst ho
  exact ⟨⟨[], by simp⟩, Or.inl rfl, Or.inr (Or.inl rfl)⟩

/-- Serving any request has the effect `Effect`. -/
theorem handle_effect (env : Env) (req : Request) (db : DB) (sess : Option Identity) :
    Effect req db sess (handle env req db sess) := by
  apply dispatch_ind (Effect req db sess)
  · exact effect_of_same _ _ _ _ rfl rfl rfl
  · intro r hr hmt hd hhd o ho
    simp only [routes, List.mem_cons, List.mem_singleton, List.not_mem_nil, or_false] at hr
    rcases hr with rfl | rfl | rfl | rfl | rfl | rfl | rfl | rfl | rfl | rfl | rfl | rfl |
      rfl | rfl | rfl | rfl | rfl | rfl | rfl | rfl | rfl | rfl | rfl
    all_goals simp only [List.mem_cons, List.mem_singleton, List.not_mem_nil, or_false] at hhd
    all_goals try subst hhd
    all_goals try (rcases hhd with rfl | rfl)
    all_goals first
      | exact effect_requireLogin _ _ _ _ _ ho
      | exact effect_getRoot _ _ _ _ _ ho
      | exact effect_renderPage _ _ _ _ _ _ ho
      | exact effect_getLogin _ _ _ _ _ ho
      | exact effect_contactSubmit _ _ _ _ _ ho
      | exact effect_dashboard _ _ _ _ _ ho
      | exact effect_register _ _ _ _ _ ho
      | exact effect_driverRegister _ _ _ _ _ ho
      | exact effect_orgRegister _ _ _ _ _ ho
      | exact effect_login _ _ _ _ _ ho
      | exact effect_book _ _ _ _ _ (post_route_matches _ _ _ hmt).1
          (post_route_matches _ _ _ hmt).2 ho
      | exact effect_confirmRideFirst _ _ _ _ _ (post_route_matches _ _ _ hmt).1
          (post_route_matches _ _ _ hmt).2 ho
      | exact effect_confirmRideSecond _ _ _ _ _ (post_route_matches _ _ _ hmt).1
          (post_route_matches _ _ _ hmt).2 ho
      | exact effect_cancelRide _ _ _ _ _ (post_route_matches _ _ _ hmt).1
          (post_route_matches _ _ _ hmt).2 ho
      | exact effect_orgAddDriver _ _ _ _ _ ho
      | exact effect_orgUpdateDriver _ _ _ _ _ ho
      | exact effect_orgDeleteDriver _ _ _ _ _ ho
      | exact effect_logout _ _ _ _ _ ho

/-! ## Sequences of requests -/

/-- One request keeps `Inv` when it is not a booking by a non-rider session. -/
theorem step_inv (s : State) (c : Call) (hinv : Inv s) (hc : userBooks s c = true) :
    Inv (step s c) := by
  obtain ⟨hB, hS⟩ := hinv
  obtain ⟨⟨us, hus⟩, hbk, hse⟩ := handle_effect c.env c.req s.db (s.sessions c.token)
  have mono : ∀ n : Nat, (∃ u ∈ s.db.users, u.id = n) →
      ∃ u ∈ (handle c.env c.req s.db (s.sessions c.token)).db.users, u.id = n := by
    rintro n ⟨u, hu, hn⟩
    exact ⟨u, by rw [hus]; exact List.mem_append_left _ hu, hn⟩
  constructor
  · intro b hb
    simp only [step] at hb ⊢
    apply mono
    rcases hbk with h | ⟨u, x, hu, hm, hp, hx, h⟩ | ⟨-, -, f, hf, h⟩ | ⟨u, -, -, -, h⟩
    · rw [h] at hb; exact hB b hb
    · rw [h] at hb
      rcases List.mem_append.1 hb with hb | hb
      · exact hB b hb
      · have hbx : b = x := by simpa using hb
        subst hbx
        rw [hx]
        apply hS c.token u hu
        simpa [userBooks, hm, hp, hu] using hc
    · rw [h] at hb
      obtain ⟨b0, hb0, rfl⟩ := List.mem_map.1 hb
      rw [(hf b0).2.1]; exact hB b0 hb0
    · rw [h] at hb
      obtain ⟨b0, hb0, rfl⟩ := List.mem_map.1 hb
      have := hB b0 hb0
      split <;> exact this
  · intro t i ht hrole
    simp only [step] at ht ⊢
    apply mono
    by_cases htc : t = c.token
    · subst htc
      rw [Function.update_same] at ht
      rcases hse with h | h | ⟨r, hr, h⟩ | ⟨j, h, hj⟩
      · rw [h] at ht; exact hS _ i ht hrole
      · rw [h] at ht; cases ht
      · rw [h] at ht
        cases ht
        exact ⟨r, hr, rfl⟩
      · rw [h] at ht
        cases ht
        exact absurd hrole hj
    · rw [Function.update_noteq htc] at ht
      exact hS t i ht hrole

/-- A sequence of requests keeps `Inv` when bookings are only made by riders. -/
theorem run_inv (cs : List Call) (s : State) (hinv : Inv s)
    (hcs : userBooksOnly s cs = true) : Inv (run s cs) := by
  induction cs generalizing s with
  | nil => exact hinv
  | cons c cs ih =>
    simp only [userBooksOnly, Bool.and_eq_true] at hcs
    simp only [run, List.foldl_cons]
    exact ih (step s c) (step_inv s c hinv hcs.1) hcs.2

/-! ## Routing and the store, on examples -/

/-- Paths match whatever the letter case and with one optional trailing slash. -/
theorem routing_case_and_slash :
    pathMatches "/book" "/book" = true ∧ pathMatches "/book" "/BOOK/" = true ∧
    pathMatches "/book" "/book//" = false ∧ pathMatches "/book" "/booking" = false ∧
    pathMatches "/confirm-ride" "/Confirm-Ride" = true ∧
    pathMatches "/" "/" = true ∧ pathMatches "/" "/index" = false := by
  decide

/-- A `POST /CONFIRM-RIDE/` is served by the first `/confirm-ride` registration. -/
theorem confirm_ride_upper_case :
    (handle (allOk 0) ⟨.POST, "/CONFIRM-RIDE/", { booking_id := 1 }, none⟩ cancelledDB
        (some eve)).db.bookings.map (fun b => (b.id, b.status)) = [(1, "Confirmed")] := by
  decide

/-- A driver session that posts the booking form to `/BOOK/` is served by the
`/book` handler, and counts as a booking by a session that is not a rider's. -/
theorem driver_books_slash :
    (run (freshState emptyDB) driverBooksSlash).db.bookings = [ride] ∧
    userBooksOnly (freshState emptyDB) driverBooksSlash = false := by
  decide

/-- The store keeps no reference intact by itself (spec 4.5): Org One deletes
driver 1 of its staff, and the ride assigned to driver 1 still names it. -/
theorem delete_driver_dangling :
    (handle (allOk 0) ⟨.POST, "/org/delete-driver", { id := 1 }, none⟩ staffedDB
        (some orgOne)).db.drivers = [] ∧
    (handle (allOk 0) ⟨.POST, "/org/delete-driver", { id := 1 }, none⟩ staffedDB
        (some orgOne)).db.bookings.map (fun b => b.driver_id) = [some 1] := by
  decide

/-! ## C1: confirm-ride and `driver_id` -/

/-- Helper: `POST /confirm-ride` never changes the `driver_id` of any booking. -/
theorem confirm_ride_driver_ids (env : Env) (body : Body) (file : Option String) (db : DB)
    (u : Identity) :
    (handle env ⟨.POST, "/confirm-ride", body, file⟩ db (some u)).db.bookings.map
        (fun b => b.driver_id)
      = db.bookings.map (fun b => b.driver_id) := by
  rw [handle_confirm_ride]
  by_cases h0 : env.ok 0 = true
  · rw [if_pos h0]
    simp only [List.map_map]
    apply List.map_congr_left
    intro b _
    simp only [Function.comp]
    split <;> rfl
  · rw [if_neg h0]

/-- C1 (fails on the code): Eve, a driver with id 2, posts `/confirm-ride` for
booking 1, which holds `driver_id` 1. The request is answered by the first
`/confirm-ride` registration: the booking becomes confirmed and keeps `driver_id`
1. The second registration, which would store the caller's id 2, is never run. -/
theorem confirm_ride_keeps_driver_id :
    handle (allOk 0) ⟨.POST, "/confirm-ride", { booking_id := 1 }, none⟩ sampleDB (some eve)
      = ⟨{ sampleDB with bookings := [{ ride with status := "Confirmed", confirmed := true }] },
          some eve, .redirect "/dashboard"⟩ ∧
    ({ ride with status := "Confirmed", confirmed := true } : Booking).driver_id = some 1 ∧
    (confirmRideSecond (allOk 0) ⟨.POST, "/confirm-ride", { booking_id := 1 }, none⟩ sampleDB
        (some eve)).map (fun o => o.db.bookings.map (fun b => b.driver_id))
      = some [some 2] := by
  decide

/-! ## C2: the status of a booking -/

/-- C2 as stated fails: a cancelled booking is confirmed again. In `cancelledDB`
booking 1 has status `Cancelled`; after Eve posts `/confirm-ride` for booking 1
its status is `Confirmed`. -/
theorem cancelled_booking_confirmed :
    cancelledDB.bookings.map (fun b => (b.id, b.status)) = [(1, "Cancelled")] ∧
    (handle (allOk 0) ⟨.POST, "/confirm-ride", { booking_id := 1 }, none⟩ cancelledDB
        (some eve)).db.bookings.map (fun b => (b.id, b.status)) = [(1, "Confirmed")] := by
  decide

/-- C2 as amended: serving any request keeps every booking at its position with
its id, and its status is what it was, unless the request is a `POST` routed to
`/confirm-ride` (in any letter case, with or without a trailing slash) naming
the booking's id (then it may be `Confirmed`, whatever it was before) or a
`POST` routed to `/cancel-ride` naming the booking's id in a session whose id is
the booking's `user_id` (then it may be `Cancelled`). So a `Cancelled` booking
stays `Cancelled` under every request except a confirm-ride request for its id,
and such a request, made in a session with an identity and executed by the
store, makes it `Confirmed`. -/
theorem status_transitions (env : Env) (req : Request) (db : DB) (sess : Option Identity)
    (i : Nat) (b : Booking) (hb : db.bookings[i]? = some b) :
    ∃ b2, (handle env req db sess).db.bookings[i]? = some b2 ∧ b2.id = b.id ∧
      (b2.status = b.status ∨
        (req.method = .POST ∧ pathMatches "/confirm-ride" req.path = true ∧
          req.body.booking_id = b.id ∧ b2.status = "Confirmed") ∨
        (req.method = .POST ∧ pathMatches "/cancel-ride" req.path = true ∧
          req.body.booking_id = b.id ∧
          (∃ u, sess = some u ∧ u.id = b.user_id) ∧ b2.status = "Cancelled")) ∧
      (req.method = .POST → pathMatches "/confirm-ride" req.path = true →
        req.body.booking_id = b.id → sess.isSome = true → env.ok 0 = true →
        b2.status = "Confirmed") := by
  have key : ∀ b2, (handle env req db sess).db.bookings[i]? = some b2 →
      req.method = .POST → pathMatches "/confirm-ride" req.path = true →
      req.body.booking_id = b.id → sess.isSome = true → env.ok 0 = true →
      b2.status = "Confirmed" := by
    intro b2 h2 hm hp hid hs hok
    obtain ⟨u, rfl⟩ := Option.isSome_iff_exists.1 hs
    rw [handle_confirm_ride_routed env req db u hm hp, if_pos hok] at h2
    simp only [List.getElem?_map, hb, Option.map_some', hid, if_true] at h2
    rw [← Option.some.inj h2]
  have main : ∃ b2, (handle env req db sess).db.bookings[i]? = some b2 ∧ b2.id = b.id ∧
      (b2.status = b.status ∨
        (req.method = .POST ∧ pathMatches "/confirm-ride" req.path = true ∧
          req.body.booking_id = b.id ∧ b2.status = "Confirmed") ∨
        (req.method = .POST ∧ pathMatches "/cancel-ride" req.path = true ∧
          req.body.booking_id = b.id ∧
          (∃ u, sess = some u ∧ u.id = b.user_id) ∧ b2.status = "Cancelled")) := by
    obtain ⟨-, hbk, -⟩ := handle_effect env req db sess
    rcases hbk with h | ⟨u, x, -, -, -, -, h⟩ | ⟨hm, hp, f, hf, h⟩ | ⟨u, hu, hm, hp, h⟩
    · exact ⟨b, by rw [h]; exact hb, rfl, Or.inl rfl⟩
    · refine ⟨b, ?_, rfl, Or.inl rfl⟩
      rw [h]
      have hi : i < db.bookings.length := by
        rcases Nat.lt_or_ge i db.bookings.length with hlt | hge
        · exact hlt
        · rw [List.getElem?_eq_none hge] at hb; cases hb
      rw [List.getElem?_append_left hi]; exact hb
    · refine ⟨f b, by rw [h]; simp [hb], (hf b).1, ?_⟩
      rcases (hf b).2.2 with hsame | ⟨hid, hst⟩
      · exact Or.inl (by rw [hsame])
      · exact Or.inr (Or.inl ⟨hm, hp, hid.symm, hst⟩)
    · by_cases hc : b.id = req.body.booking_id ∧ b.user_id = u.id
      · exact ⟨{ b with status := "Cancelled", confirmed := false },
          by rw [h]; simp [hb, hc], rfl,
          Or.inr (Or.inr ⟨hm, hp, hc.1.symm, ⟨u, hu, hc.2.symm⟩, rfl⟩)⟩
      · exact ⟨b, by rw [h]; simp [hb, hc], rfl, Or.inl rfl⟩
  obtain ⟨b2, h1, h2, h3⟩ := main
  exact ⟨b2, h1, h2, h3, key b2 h1⟩

/-- C2, instance: the cancelled booking of `cancelledDB` when Eve posts
`/confirm-ride` for it. -/
theorem status_transitions_witness :
    cancelledDB.bookings[0]? = some { ride with status := "Cancelled" } ∧
    ∃ b2, (handle (allOk 0) ⟨.POST, "/confirm-ride", { booking_id := 1 }, none⟩ cancelledDB
        (some eve)).db.bookings[0]? = some b2 ∧ b2.status = "Confirmed" :=
  ⟨rfl,
    match status_transitions (allOk 0) ⟨.POST, "/confirm-ride", { booking_id := 1 }, none⟩
      cancelledDB (some eve) 0 { ride with status := "Cancelled" } rfl with
    | ⟨b2, h1, _, _, h4⟩ => ⟨b2, h1, h4 rfl (by decide) rfl rfl rfl⟩⟩

/-! ## C3: registration, then login -/

/-- C3 as stated fails: Alice, already registered as a rider, registers as a
driver with the same email and password and gets the drivers row with id 3. The
registration is accepted, and the login that follows establishes the session of
the rider row: role `user`, id 1. -/
theorem driver_register_login_as_user :
    (handle (allOk 3) ⟨.POST, "/driver-register", aliceBody, none⟩ sampleDB none).resp
      = .send driverRegisterOk ∧
    (handle (allOk 3) ⟨.POST, "/driver-register", aliceBody, none⟩ sampleDB
        none).db.drivers.map (fun d => (d.id, d.email, d.password))
      = [(1, "d@x.com", "p2"), (2, "e@x.com", "p3"), (3, "a@x.com", "p1")] ∧
    handle (allOk 0) ⟨.POST, "/login", aliceBody, none⟩
        (handle (allOk 3) ⟨.POST, "/driver-register", aliceBody, none⟩ sampleDB none).db none
      = ⟨(handle (allOk 3) ⟨.POST, "/driver-register", aliceBody, none⟩ sampleDB none).db,
          some ⟨1, "user", "Alice"⟩, .redirect "/dashboard"⟩ := by
  decide

/-- C3 as amended: after a registration that was accepted, a login with the same
email and password (the store answering its queries) redirects to `/dashboard`
and establishes the session of the first row with this email and password in
the order users, drivers, organizations, the registered row being the last of
its table. After `/register` that is the first earlier users row with them,
else the registered row (role `user` in both cases). After `/driver-register`
it is the first users row with them (role `user`), else the first earlier
drivers row with them, else the registered row (role `driver`). After
`/org-register` it is the first users row, else the first drivers row, else the
first earlier organizations row with them, else the registered row (role
`organization`). So role and id are those of the registration when no earlier
row in this order has the email and password. -/
theorem register_then_login (env env2 : Env) (body body2 : Body) (file file2 : Option String)
    (db : DB) (sess sess2 : Option Identity) (hok : ∀ k, env2.ok k = true)
    (he : body2.email = body.email) (hp : body2.password = body.password) :
    ((handle env ⟨.POST, "/register", body, file⟩ db sess).resp = .send registerOk →
      let o := handle env2 ⟨.POST, "/login", body2, file2⟩
        (handle env ⟨.POST, "/register", body, file⟩ db sess).db sess2
      o.resp = .redirect "/dashboard" ∧ (∃ i, o.session = some i ∧ i.role = "user") ∧
      o.session = some
        (match db.users.find? (credU body.email body.password) with
         | some r => ⟨r.id, "user", r.fullname⟩
         | none => ⟨env.newId, "user", body.fullname⟩) ∧
      ((∀ r ∈ db.users, credU body.email body.password r = false) →
        o.session = some ⟨env.newId, "user", body.fullname⟩)) ∧
    ((handle env ⟨.POST, "/driver-register", body, file⟩ db sess).resp
        = .send driverRegisterOk →
      let o := handle env2 ⟨.POST, "/login", body2, file2⟩
        (handle env ⟨.POST, "/driver-register", body, file⟩ db sess).db sess2
      o.resp = .redirect "/dashboard" ∧ (∃ i, o.session = some i) ∧
      o.session = some
        (match db.users.find? (credU body.email body.password) with
         | some r => ⟨r.id, "user", r.fullname⟩
         | none =>
           match db.drivers.find? (credD body.email body.password) with
           | some r => ⟨r.id, "driver", r.fullname⟩
           | none => ⟨env.newId, "driver", body.fullname⟩) ∧
      ((∀ r ∈ db.users, credU body.email body.password r = false) →
        (∀ r ∈ db.drivers, credD body.email body.password r = false) →
        o.session = some ⟨env.newId, "driver", body.fullname⟩)) ∧
    ((handle env ⟨.POST, "/org-register", body, file⟩ db sess).resp = .send orgRegisterOk →
      let o := handle env2 ⟨.POST, "/login", body2, file2⟩
        (handle env ⟨.POST, "/org-register", body, file⟩ db sess).db sess2
      o.resp = .redirect "/dashboard" ∧ (∃ i, o.session = some i) ∧
      o.session = some
        (match db.users.find? (credU body.email body.password) with
         | some r => ⟨r.id, "user", r.fullname⟩
         | none =>
           match db.drivers.find? (credD body.email body.password) with
           | some r => ⟨r.id, "driver", r.fullname⟩
           | none =>
             match db.organizations.find? (credO body.email body.password) with
             | some r => ⟨r.id, "organization", r.company_name⟩
             | none => ⟨env.newId, "organization", body.companyName⟩) ∧
      ((∀ r ∈ db.users, credU body.email body.password r = false) →
        (∀ r ∈ db.drivers, credD body.email body.password r = false) →
        (∀ r ∈ db.organizations, credO body.email body.password r = false) →
        o.session = some ⟨env.newId, "organization", body.companyName⟩)) := by
  refine ⟨?_, ?_, ?_⟩
  · rw [handle_register]
    by_cases h0 : env.ok 0 = true
    · rw [if_pos h0]
      intro _ o
      have ho : o = _ := handle_login env2 body2 file2 _ sess2 hok
      rw [he, hp] at ho
      have hnew := find_append_new (credU body.email body.password) db.users
        ⟨env.newId, body.fullname, body.email, body.password, body.phone, body.city⟩
        (by simp [credU])
      simp only [hnew] at ho
      rw [ho]
      cases hu : db.users.find? (credU body.email body.password) with
      | some ru =>
        refine ⟨rfl, ⟨_, rfl, rfl⟩, rfl, fun h => ?_⟩
        rw [find_none_of_no_match _ _ h] at hu
        cases hu
      | none => exact ⟨rfl, ⟨_, rfl, rfl⟩, rfl, fun _ => rfl⟩
    · rw [if_neg h0]; intro h; simp at h
  · rw [handle_driver_register]
    by_cases h0 : env.ok 0 = true
    · rw [if_pos h0]
      intro _ o
      have ho : o = _ := handle_login env2 body2 file2 _ sess2 hok
      rw [he, hp] at ho
      have hnew := find_append_new (credD body.email body.password) db.drivers
        ⟨env.newId, body.fullname, body.email, body.password, body.phone, body.city,
          body.orgOpt, body.orgId, file.map (fun filename => "/uploads/" ++ filename)⟩
        (by simp [credD])
      simp only [hnew] at ho
      rw [ho]
      cases hu : db.users.find? (credU body.email body.password) with
      | some ru =>
        refine ⟨rfl, ⟨_, rfl⟩, rfl, fun h => ?_⟩
        rw [find_none_of_no_match _ _ h] at hu
        cases hu
      | none =>
        cases hd : db.drivers.find? (credD body.email body.password) with
        | some rd =>
          refine ⟨rfl, ⟨_, rfl⟩, rfl, fun _ h => ?_⟩
          rw [find_none_of_no_match _ _ h] at hd
          cases hd
        | none => exact ⟨rfl, ⟨_, rfl⟩, rfl, fun _ _ => rfl⟩
    · rw [if_neg h0]; intro h; simp at h
  · rw [handle_org_register]
    by_cases h0 : env.ok 0 = true
    · rw [if_pos h0]
      intro _ o
      have ho : o = _ := handle_login env2 body2 file2 _ sess2 hok
      rw [he, hp] at ho
      have hnew := find_append_new (credO body.email body.password) db.organizations
        ⟨env.newId, body.companyName, body.regNumber, body.email, body.phone, body.password⟩
        (by simp [credO])
      simp only [hnew] at ho
      rw [ho]
      cases hu : db.users.find? (credU body.email body.password) with
      | some ru =>
        refine ⟨rfl, ⟨_, rfl⟩, rfl, fun h => ?_⟩
        rw [find_none_of_no_match _ _ h] at hu
        cases hu
      | none =>
        cases hd : db.drivers.find? (credD body.email body.password) with
        | some rd =>
          refine ⟨rfl, ⟨_, rfl⟩, rfl, fun _ h => ?_⟩
          rw [find_none_of_no_match _ _ h] at hd
          cases hd
        | none =>
          cases hg : db.organizations.find? (credO body.email body.password) with
          | some rg =>
            refine ⟨rfl, ⟨_, rfl⟩, rfl, fun _ _ h => ?_⟩
            rw [find_none_of_no_match _ _ h] at hg
            cases hg
          | none => exact ⟨rfl, ⟨_, rfl⟩, rfl, fun _ _ _ => rfl⟩
    · rw [if_neg h0]; intro h; simp at h

/-- C3, instance: Alice registers as a rider in the empty store and logs in. -/
theorem register_then_login_witness :
    (handle (allOk 1) ⟨.POST, "/register", aliceBody, none⟩ emptyDB none).resp
      = .send registerOk ∧
    (∀ r ∈ emptyDB.users, credU aliceBody.email aliceBody.password r = false) ∧
    (handle (allOk 0) ⟨.POST, "/login", aliceBody, none⟩
        (handle (allOk 1) ⟨.POST, "/register", aliceBody, none⟩ emptyDB none).db none).session
      = some ⟨1, "user", "Alice"⟩ :=
  ⟨by decide, by decide,
    ((register_then_login (allOk 1) (allOk 0) aliceBody aliceBody none none emptyDB none none
      (fun _ => rfl) rfl rfl).1 (by decide)).2.2.2 (by decide)⟩

/-! ## C4: cancel-ride leaves everything else alone -/

/-- C4: `POST /cancel-ride` by an authenticated caller. When no booking has both
the submitted id and the caller's id as `user_id`, the store is unchanged. In
every case the other three tables are unchanged, the bookings table keeps its
length, and each of its rows is unchanged except a row with the submitted id
and the caller's id as `user_id`, which (when the store executes the statement)
becomes the same row with status `Cancelled` and `confirmed` false. -/
theorem cancel_ride_frame (env : Env) (body : Body) (file : Option String) (db : DB)
    (u : Identity) :
    let o := handle env ⟨.POST, "/cancel-ride", body, file⟩ db (some u)
    ((∀ b ∈ db.bookings, b.id = body.booking_id → b.user_id ≠ u.id) → o.db = db) ∧
    o.db.users = db.users ∧ o.db.drivers = db.drivers ∧
    o.db.organizations = db.organizations ∧
    o.db.bookings.length = db.bookings.length ∧
    (∀ (i : Nat) (b : Booking), db.bookings[i]? = some b →
      o.db.bookings[i]? = some
        (if b.id = body.booking_id ∧ b.user_id = u.id ∧ env.ok 0 = true then
           { b with status := "Cancelled", confirmed := false }
         else b)) := by
  intro o
  have ho : o = _ := handle_cancel_ride env body file db u
  rw [ho]
  cases hok : env.ok 0
  · simp
  · simp only [if_true, List.length_map, List.getElem?_map, and_true, true_and]
    refine ⟨fun h => ?_, fun i b hb => ?_⟩
    · have : db.bookings.map (fun b =>
          if b.id = body.booking_id ∧ b.user_id = u.id then
            { b with status := "Cancelled", confirmed := false }
          else b) = db.bookings := by
        conv_rhs => rw [← List.map_id db.bookings]
        apply List.map_congr_left
        intro b hb
        have := h b hb
        by_cases h1 : b.id = body.booking_id
        · simp [h1, this h1]
        · simp [h1]
      rw [this]
    · simp [hb]

/-- C4, instance: Eve (id 2) posts `/cancel-ride` for Alice's ride. -/
theorem cancel_ride_frame_witness :
    (∀ b ∈ sampleDB.bookings, b.id = 1 → b.user_id ≠ eve.id) ∧
    (handle (allOk 0) ⟨.POST, "/cancel-ride", { booking_id := 1 }, none⟩ sampleDB
      (some eve)).db = sampleDB :=
  ⟨by decide, (cancel_ride_frame (allOk 0) { booking_id := 1 } none sampleDB eve).1
    (by decide)⟩

/-! ## C5: organization driver management -/

/-- C5: the three `/org/...` endpoints, called by an authenticated caller. When
the store executes it, `add-driver` appends exactly one driver row, whose
`organization_id` is the caller's id. After `update-driver` and after
`delete-driver` the rows of the drivers table whose `organization_id` is not the
caller's id are the same rows in the same order, so each of them is still
present. None of the three touches another table. -/
theorem org_endpoints_scoped (env : Env) (body : Body) (file : Option String) (db : DB)
    (u : Identity) :
    (∃ d : Driver, d.organization_id = some u.id ∧ d.id = env.newId ∧
        (handle env ⟨.POST, "/org/add-driver", body, file⟩ db (some u)).db.drivers
          = if env.ok 0 then db.drivers ++ [d] else db.drivers) ∧
    othersDrivers u.id
        (handle env ⟨.POST, "/org/update-driver", body, file⟩ db (some u)).db.drivers
      = othersDrivers u.id db.drivers ∧
    othersDrivers u.id
        (handle env ⟨.POST, "/org/delete-driver", body, file⟩ db (some u)).db.drivers
      = othersDrivers u.id db.drivers ∧
    (∀ d ∈ db.drivers, d.organization_id ≠ some u.id →
      d ∈ (handle env ⟨.POST, "/org/update-driver", body, file⟩ db (some u)).db.drivers ∧
      d ∈ (handle env ⟨.POST, "/org/delete-driver", body, file⟩ db (some u)).db.drivers) ∧
    sameButDrivers (handle env ⟨.POST, "/org/add-driver", body, file⟩ db (some u)).db db ∧
    sameButDrivers (handle env ⟨.POST, "/org/update-driver", body, file⟩ db (some u)).db db ∧
    sameButDrivers (handle env ⟨.POST, "/org/delete-driver", body, file⟩ db (some u)).db db := by
  rw [handle_add_driver, handle_update_driver, handle_delete_driver]
  have hupd : othersDrivers u.id (db.drivers.map (fun d =>
             if d.id = body.id ∧ d.organization_id = some u.id then
               { d with fullname := body.fullname, email := body.email,
                        phone := body.phone, city := body.city }
             else d)) = othersDrivers u.id db.drivers := by
    unfold othersDrivers
    induction db.drivers with
    | nil => rfl
    | cons d ds ih =>
      simp only [decide_not] at ih
      by_cases hd : d.organization_id = some u.id
      · by_cases hi : d.id = body.id <;> simp [List.filter_cons, hd, hi, ih]
      · simp [List.filter_cons, hd, ih]
  have hdel : othersDrivers u.id (db.drivers.filter (fun d =>
             ¬ (d.id = body.id ∧ d.organization_id = some u.id)))
      = othersDrivers u.id db.drivers := by
    unfold othersDrivers
    rw [List.filter_filter]
    apply List.filter_congr
    intro d _
    by_cases hd : d.organization_id = some u.id <;> simp [hd]
  have hmem : ∀ (ds ds2 : List Driver), othersDrivers u.id ds2 = othersDrivers u.id ds →
      ∀ d ∈ ds, d.organization_id ≠ some u.id → d ∈ ds2 := by
    intro ds ds2 h d hd hne
    have : d ∈ othersDrivers u.id ds := by
      simp only [othersDrivers, List.mem_filter]
      exact ⟨hd, by simpa using hne⟩
    rw [← h] at this
    exact (List.mem_filter.1 this).1
  refine ⟨⟨{ id := env.newId, fullname := body.fullname, email := body.email,
                password := body.password, phone := body.phone, city := body.city,
                org_type := "Organization", organization_id := some u.id,
                license_file := none }, rfl, rfl, ?_⟩, ?_, ?_, ?_, ?_, ?_, ?_⟩
  · cases h0 : env.ok 0 <;> simp
  · by_cases h0 : env.ok 0 = true
    · rw [if_pos h0]; exact hupd
    · rw [if_neg h0]
  · by_cases h0 : env.ok 0 = true
    · rw [if_pos h0]; exact hdel
    · rw [if_neg h0]
  · intro d hd hne
    by_cases h0 : env.ok 0 = true
    · rw [if_pos h0, if_pos h0]
      exact ⟨hmem _ _ hupd d hd hne, hmem _ _ hdel d hd hne⟩
    · rw [if_neg h0, if_neg h0]
      exact ⟨hd, hd⟩
  · by_cases h0 : env.ok 0 = true
    · rw [if_pos h0]; exact ⟨rfl, rfl, rfl⟩
    · rw [if_neg h0]; exact ⟨rfl, rfl, rfl⟩
  · by_cases h0 : env.ok 0 = true
    · rw [if_pos h0]; exact ⟨rfl, rfl, rfl⟩
    · rw [if_neg h0]; exact ⟨rfl, rfl, rfl⟩
  · by_cases h0 : env.ok 0 = true
    · rw [if_pos h0]; exact ⟨rfl, rfl, rfl⟩
    · rw [if_neg h0]; exact ⟨rfl, rfl, rfl⟩

/-- C5, instance: two organizations each add a driver; Org One posts
`delete-driver` with the id of Org Two's driver, whose row is still present. -/
theorem org_endpoints_scoped_witness :
    (run (freshState emptyDB) twoOrgs).sessions 1 = some orgOne ∧
    staffTwo ∈ (run (freshState emptyDB) twoOrgs).db.drivers ∧
    staffTwo ∈ (handle (allOk 0) ⟨.POST, "/org/delete-driver", { id := 2 }, none⟩
      (run (freshState emptyDB) twoOrgs).db (some orgOne)).db.drivers :=
  ⟨by decide, by decide,
    ((org_endpoints_scoped (allOk 0) { id := 2 } none (run (freshState emptyDB) twoOrgs).db
      orgOne).2.2.2.1 staffTwo (by decide) (by decide)).2⟩

/-! ## C6: booking creation -/

/-- C6: a `POST /book` by an authenticated caller that succeeds adds exactly one
row at the end of the bookings table and changes nothing else. The new row has
status `Scheduled`, `confirmed` false, the caller's id as `user_id`, the
submitted addresses, time and dates, and as `driver_id` the id of the first row
of the drivers table, or null when that table is empty. -/
theorem book_creates_scheduled (env : Env) (body : Body) (file : Option String) (db : DB)
    (u : Identity)
    (hsucc : (handle env ⟨.POST, "/book", body, file⟩ db (some u)).resp = .send bookOk) :
    let o := handle env ⟨.POST, "/book", body, file⟩ db (some u)
    o.db.bookings = db.bookings ++
      [{ id := env.newId, user_id := u.id,
         driver_id := db.drivers.head?.map (fun d => d.id),
         pickup_address := body.pickup_address, drop_address := body.drop_address,
         pickup_time := body.pickup_time, start_date := body.start_date,
         end_date := body.end_date, status := "Scheduled", confirmed := false }] ∧
    o.db.users = db.users ∧ o.db.drivers = db.drivers ∧
    o.db.organizations = db.organizations ∧ o.session = some u := by
  intro o
  have ho : o = _ := handle_book env body file db u
  rw [handle_book] at hsucc
  rw [ho]
  by_cases h : env.ok 0 = true ∧ env.ok 1 = true
  · simp only [h, and_self, if_true, and_true]
    cases db.drivers <;> simp
  · rw [if_neg h] at hsucc
    simp at hsucc

/-- C6, instance: Alice books a second ride in `sampleDB`. -/
theorem book_creates_scheduled_witness :
    (handle (allOk 2) ⟨.POST, "/book", rideBody, none⟩ sampleDB (some alice)).resp
      = .send bookOk ∧
    (handle (allOk 2) ⟨.POST, "/book", rideBody, none⟩ sampleDB (some alice)).db.bookings
      = [ride, ⟨2, 1, some 1, "A", "B", "10:00", "2024-01-01", "2024-01-02", "Scheduled",
          false⟩] :=
  ⟨by decide, (book_creates_scheduled (allOk 2) rideBody none sampleDB alice (by decide)).1⟩

/-! ## C7: who can cancel -/

/-- C7 as stated fails: Alice (rider, users row 1) books a ride and Dan (driver,
drivers row 1) logs in. Dan's session has role `driver` and id 1, the ride's
`user_id` is 1, and Dan's `POST /cancel-ride` cancels the ride. -/
theorem driver_session_cancels :
    (run (freshState emptyDB) riderAndDriver).sessions 1 = some dan ∧
    (run (freshState emptyDB) riderAndDriver).db.bookings = [ride] ∧
    (step (run (freshState emptyDB) riderAndDriver)
        ⟨1, allOk 0, ⟨.POST, "/cancel-ride", { booking_id := 1 }, none⟩⟩).db.bookings
      = [{ ride with status := "Cancelled" }] := by
  decide

/-- C7 as amended: when `POST /cancel-ride` changes a bookings row, the row has
the submitted id and its `user_id` is the id of the caller's session (whatever
the role of that session), and the change is to status `Cancelled` and
`confirmed` false. -/
theorem cancel_ride_scoped_by_id (env : Env) (body : Body) (file : Option String) (db : DB)
    (u : Identity) (i : Nat) (b b2 : Booking) (hb : db.bookings[i]? = some b)
    (hb2 : (handle env ⟨.POST, "/cancel-ride", body, file⟩ db (some u)).db.bookings[i]?
      = some b2)
    (hne : b2 ≠ b) :
    b.id = body.booking_id ∧ b.user_id = u.id ∧
      b2 = { b with status := "Cancelled", confirmed := false } := by
  rw [handle_cancel_ride] at hb2
  by_cases h0 : env.ok 0 = true
  · rw [if_pos h0] at hb2
    simp only [List.getElem?_map, hb, Option.map_some'] at hb2
    by_cases hc : b.id = body.booking_id ∧ b.user_id = u.id
    · rw [if_pos hc] at hb2
      exact ⟨hc.1, hc.2, (Option.some.inj hb2).symm⟩
    · rw [if_neg hc] at hb2
      exact absurd (Option.some.inj hb2).symm hne
  · rw [if_neg h0] at hb2
    rw [hb] at hb2
    exact absurd (Option.some.inj hb2).symm hne

/-- C7, instance: Alice cancels her ride in `sampleDB`. -/
theorem cancel_ride_scoped_by_id_witness :
    sampleDB.bookings[0]? = some ride ∧
    (handle (allOk 0) ⟨.POST, "/cancel-ride", { booking_id := 1 }, none⟩ sampleDB
      (some alice)).db.bookings[0]? = some { ride with status := "Cancelled" } ∧
    ({ ride with status := "Cancelled" } : Booking) ≠ ride ∧
    (ride.id = 1 ∧ ride.user_id = alice.id ∧
      ({ ride with status := "Cancelled" } : Booking)
        = { ride with status := "Cancelled", confirmed := false }) :=
  ⟨rfl, by decide, by decide,
    cancel_ride_scoped_by_id (allOk 0) { booking_id := 1 } none sampleDB alice 0 ride
      { ride with status := "Cancelled" } rfl (by decide) (by decide)⟩

/-! ## C8: bookings reference users -/

/-- C8 as stated fails: from the empty store, Dan registers as a driver, logs in
and posts `/book`. The handler stores the id of the session, whatever its role:
the booking has `user_id` 1, Dan's drivers id, and the users table is empty. The
store executes the `INSERT`; it enforces no reference between tables, as in
spec 4.5 and 9, where the bookings of a deleted driver keep its id. -/
theorem driver_booking_without_user :
    (run (freshState emptyDB) driverBooks).db.users = [] ∧
    (run (freshState emptyDB) driverBooks).db.bookings = [ride] ∧
    ¬ (∀ b ∈ (run (freshState emptyDB) driverBooks).db.bookings,
        ∃ u ∈ (run (freshState emptyDB) driverBooks).db.users, u.id = b.user_id) := by
  decide

/-- C8 as amended: start a server with no session on a store with no bookings
and serve any sequence of requests in which a `POST` routed to `/book` (in any
letter case, with or without a trailing slash) is only made in sessions of role
`user`. Then every bookings row has as `user_id` the id of some users row,
whatever statements the store executes or rejects. -/
theorem bookings_reference_users (db : DB) (cs : List Call) (hdb : db.bookings = [])
    (hcs : userBooksOnly (freshState db) cs = true) :
    ∀ b ∈ (run (freshState db) cs).db.bookings,
      ∃ u ∈ (run (freshState db) cs).db.users, u.id = b.user_id := by
  have h0 : Inv (freshState db) := by
    constructor
    · intro b hb
      simp [freshState, hdb] at hb
    · intro t i ht
      simp [freshState] at ht
  exact (run_inv cs (freshState db) h0 hcs).1

/-- C8, instance: Alice registers, logs in and books a ride. -/
theorem bookings_reference_users_witness :
    userBooksOnly (freshState emptyDB) riderBooks = true ∧
    (run (freshState emptyDB) riderBooks).db.bookings = [{ ride with driver_id := none }] ∧
    ∀ b ∈ (run (freshState emptyDB) riderBooks).db.bookings,
      ∃ u ∈ (run (freshState emptyDB) riderBooks).db.users, u.id = b.user_id :=
  ⟨by decide, by decide, bookings_reference_users emptyDB riderBooks rfl (by decide)⟩

/-! ## C9: login -/

/-- C9: `POST /login`, the store answering its queries, changes no table. When
a users row has the submitted email and password, the session identity becomes
id and fullname of the first such row with role `user`; otherwise, when a drivers
row has them, id and fullname of the first such row with role `driver`;
otherwise, when an organizations row has them, id and company name of the first
such row with role `organization`; in these cases the response redirects to
`/dashboard`. When no row of the three tables has them, the response is the
invalid-credentials alert and the session identity is what it was. -/
theorem login_first_match_wins (env : Env) (body : Body) (file : Option String) (db : DB)
    (sess : Option Identity) (hok : ∀ k, env.ok k = true) :
    let o := handle env ⟨.POST, "/login", body, file⟩ db sess
    o.db = db ∧
    (∀ r, db.users.find? (credU body.email body.password) = some r →
      o.session = some ⟨r.id, "user", r.fullname⟩ ∧ o.resp = .redirect "/dashboard") ∧
    ((∀ r ∈ db.users, credU body.email body.password r = false) →
      ∀ r, db.drivers.find? (credD body.email body.password) = some r →
      o.session = some ⟨r.id, "driver", r.fullname⟩ ∧ o.resp = .redirect "/dashboard") ∧
    ((∀ r ∈ db.users, credU body.email body.password r = false) →
      (∀ r ∈ db.drivers, credD body.email body.password r = false) →
      ∀ r, db.organizations.find? (credO body.email body.password) = some r →
      o.session = some ⟨r.id, "organization", r.company_name⟩ ∧
        o.resp = .redirect "/dashboard") ∧
    ((∀ r ∈ db.users, credU body.email body.password r = false) →
      (∀ r ∈ db.drivers, credD body.email body.password r = false) →
      (∀ r ∈ db.organizations, credO body.email body.password r = false) →
      o.session = sess ∧ o.resp = .send invalidCredentials) := by
  intro o
  have ho : o = _ := handle_login env body file db sess hok
  refine ⟨?_, ?_, ?_, ?_, ?_⟩
  · rw [ho]
    cases db.users.find? (credU body.email body.password) <;>
      cases db.drivers.find? (credD body.email body.password) <;>
      cases db.organizations.find? (credO body.email body.password) <;> rfl
  · intro r hr
    rw [ho]; simp [hr]
  · intro hu r hr
    rw [ho]; simp [find_none_of_no_match _ _ hu, hr]
  · intro hu hd r hr
    rw [ho]
    simp [find_none_of_no_match _ _ hu, find_none_of_no_match _ _ hd, hr]
  · intro hu hd hg
    rw [ho]
    simp [find_none_of_no_match _ _ hu, find_none_of_no_match _ _ hd,
      find_none_of_no_match _ _ hg]

/-- C9, instance: Dan logs in on `sampleDB`; no users row has his credentials. -/
theorem login_first_match_wins_witness :
    (∀ r ∈ sampleDB.users, credU danBody.email danBody.password r = false) ∧
    sampleDB.drivers.find? (credD danBody.email danBody.password)
      = some ⟨1, "Dan", "d@x.com", "p2", "2", "X", "Independent", none, none⟩ ∧
    (handle (allOk 0) ⟨.POST, "/login", danBody, none⟩ sampleDB none).session = some dan ∧
    (handle (allOk 0) ⟨.POST, "/login", danBody, none⟩ sampleDB none).resp
      = .redirect "/dashboard" :=
  ⟨by decide, by decide,
    (login_first_match_wins (allOk 0) danBody none sampleDB none (fun _ => rfl)).2.2.1
      (by decide) ⟨1, "Dan", "d@x.com", "p2", "2", "X", "Independent", none, none⟩
      (by decide)⟩

/-! ## C10: protected routes without a session -/

/-- C10: a request to a route registered behind `requireLogin` that carries no
session identity is answered by a redirect to `/login` (not by an error), and
leaves the store and the session as they were. -/
theorem protected_without_session (env : Env) (req : Request) (db : DB)
    (h : (req.method, req.path) ∈ protectedRoutes) :
    handle env req db none = ⟨db, none, .redirect "/login"⟩ := by
  obtain ⟨m, p, body, file⟩ := req
  simp only [protectedRoutes, List.mem_cons, Prod.mk.injEq, List.mem_singleton,
    List.not_mem_nil, or_false] at h
  rcases h with ⟨rfl, rfl⟩ | ⟨rfl, rfl⟩ | ⟨rfl, rfl⟩ | ⟨rfl, rfl⟩ | ⟨rfl, rfl⟩ | ⟨rfl, rfl⟩ |
      ⟨rfl, rfl⟩ <;>
    simp [handle, routes, dispatch, routeMatches, methodMatches, pathMatches, lowerPath,
      runStack, requireLogin]

/-- C10, instance: `POST /cancel-ride` without a session on `sampleDB`. -/
theorem protected_without_session_witness :
    (Method.POST, "/cancel-ride") ∈ protectedRoutes ∧
    handle (allOk 0) ⟨.POST, "/cancel-ride", { booking_id := 1 }, none⟩ sampleDB none
      = ⟨sampleDB, none, .redirect "/login"⟩ :=
  ⟨by decide, protected_without_session (allOk 0)
    ⟨.POST, "/cancel-ride", { booking_id := 1 }, none⟩ sampleDB (by decide)⟩

end CarRentals
